import Mathlib

/-!
Verification of the resilient LLM-invocation and session-orchestration layer
of the mock-interview service (`tools.py`, `api.py`).

The Python code is shallowly embedded:
* JSON values (the results of `json.loads`) are the inductive `JVal`; Python
  `None` is `JVal.jnull`; Python dicts built from JSON objects are association
  lists (`PyDict`, duplicate keys resolved last-wins as in Python).
* `json.loads` is modelled by `loads`, a recursive-descent parser for the
  strict JSON accepted by Python's `json` module (including the `NaN` /
  `Infinity` extensions).  JSON floats are modelled exactly as rationals
  (decimal literals; the double rounding of CPython is not modelled).
* `codecs` `unicode_escape` decoding is modelled by `unicodeEscape` (exact on
  ASCII input, which is the only use here).
* The remote LLM call is an oracle: each attempt's outcome is a
  `CallOutcome`, and functions that invoke the model take the outcome(s) as
  parameters.
* The FastAPI layer state (`INTERVIEW_SESSIONS`, background units) is an
  explicit `Session` record with pure state-transformer functions.
-/

/-- A parsed JSON value, as produced by Python's `json.loads`.
`jnull` is Python `None`; `jnan`/`jinf` model the non-standard `NaN`,
`Infinity` and `-Infinity` constants that `json.loads` accepts. -/
inductive JVal where
  | jnull
  | jbool (b : Bool)
  | jint (n : Int)
  | jfloat (q : Rat)
  | jnan
  | jinf (neg : Bool)
  | jstr (s : String)
  | jarr (xs : List JVal)
  | jobj (kvs : List (String × JVal))

/-- A Python dict whose keys are strings, as an association list.
Lookups are last-wins, matching dict construction from JSON objects. -/
abbrev PyDict := List (String × JVal)

/-- JSON whitespace (the only characters `json.loads` skips between tokens). -/
def isJsonWs (c : Char) : Bool := c = ' ' || c = '\t' || c = '\n' || c = '\r'

def skipWs (cs : List Char) : List Char := cs.dropWhile isJsonWs

def hexVal? (c : Char) : Option Nat :=
  let n := c.toNat
  if 48 ≤ n && n ≤ 57 then some (n - 48)
  else if 97 ≤ n && n ≤ 102 then some (n - 87)
  else if 65 ≤ n && n ≤ 70 then some (n - 55)
  else none

def octVal? (c : Char) : Option Nat :=
  if '0' ≤ c && c ≤ '7' then some (c.toNat - '0'.toNat) else none

/-- Codepoint to `Char`; invalid scalar values (surrogates) become U+FFFD
(Python can keep lone surrogates in a `str`; Lean `Char` cannot, so they are
approximated by the replacement character). -/
def mkCodepoint (n : Nat) : Char :=
  if n.isValidChar then Char.ofNat n else '�'

/-- Scan of a JSON string body (after the opening quote), producing raw
codepoints (surrogates from tight `\uXXXX` escapes are kept as numbers and
combined afterwards, as Python's json scanner does). -/
def parseJStrAux : List Char → List Nat → Option (List Nat × List Char)
  | [], _ => none
  | '"' :: rest, acc => some (acc.reverse, rest)
  | '\\' :: 'u' :: h1 :: h2 :: h3 :: h4 :: rest, acc =>
    match hexVal? h1, hexVal? h2, hexVal? h3, hexVal? h4 with
    | some a, some b, some c, some d =>
      parseJStrAux rest ((((a * 16 + b) * 16 + c) * 16 + d) :: acc)
    | _, _, _, _ => none
  | '\\' :: '"' :: rest, acc => parseJStrAux rest ('"'.toNat :: acc)
  | '\\' :: '\\' :: rest, acc => parseJStrAux rest ('\\'.toNat :: acc)
  | '\\' :: '/' :: rest, acc => parseJStrAux rest ('/'.toNat :: acc)
  | '\\' :: 'b' :: rest, acc => parseJStrAux rest (0x08 :: acc)
  | '\\' :: 'f' :: rest, acc => parseJStrAux rest (0x0c :: acc)
  | '\\' :: 'n' :: rest, acc => parseJStrAux rest (0x0a :: acc)
  | '\\' :: 'r' :: rest, acc => parseJStrAux rest (0x0d :: acc)
  | '\\' :: 't' :: rest, acc => parseJStrAux rest (0x09 :: acc)
  | '\\' :: _, _ => none
  | c :: rest, acc => if c.toNat < 0x20 then none else parseJStrAux rest (c.toNat :: acc)

/-- Combine UTF-16 surrogate pairs coming from `\uXXXX` escapes into single
codepoints (as Python's json scanner does). -/
def combineSurrogates : List Nat → List Char
  | [] => []
  | n :: m :: rest =>
    if 0xD800 ≤ n && n ≤ 0xDBFF && 0xDC00 ≤ m && m ≤ 0xDFFF then
      mkCodepoint (0x10000 + (n - 0xD800) * 0x400 + (m - 0xDC00)) :: combineSurrogates rest
    else
      mkCodepoint n :: combineSurrogates (m :: rest)
  | [n] => [mkCodepoint n]

def parseJStr (cs : List Char) : Option (String × List Char) :=
  match parseJStrAux cs [] with
  | some (ns, rest) => some (String.mk (combineSurrogates ns), rest)
  | none => none

/-- Match a literal keyword as a prefix, returning the remainder. -/
def matchLit : List Char → List Char → Option (List Char)
  | [], rest => some rest
  | l :: ls, c :: rest => if c = l then matchLit ls rest else none
  | _ :: _, [] => none

def digitsToNat (ds : List Char) : Nat :=
  ds.foldl (fun a c => a * 10 + (c.toNat - '0'.toNat)) 0

/-- `m * 10 ^ e` as an exact rational. -/
def ratOfSci (m : Int) (e : Int) : Rat :=
  if 0 ≤ e then ((m * 10 ^ e.toNat : Int) : Rat) else mkRat m (10 ^ (-e).toNat)

/-- JSON number scanner: `-?(0|[1-9][0-9]*)(\.[0-9]+)?([eE][+-]?[0-9]+)?`,
maximal match; integer literals yield `jint`, any fraction/exponent yields
`jfloat` (exact decimal value). -/
def parseNumber (cs : List Char) : Option (JVal × List Char) :=
  let signed : Bool × List Char := match cs with
    | '-' :: r => (true, r)
    | _ => (false, cs)
  let neg := signed.1
  let cs1 := signed.2
  let intPart : Option (List Char × List Char) := match cs1 with
    | '0' :: r => some (['0'], r)
    | c :: _ => if c.isDigit then some (cs1.takeWhile Char.isDigit, cs1.dropWhile Char.isDigit) else none
    | [] => none
  match intPart with
  | none => none
  | some (ids, r1) =>
    let fracPart : List Char × List Char := match r1 with
      | '.' :: r2 =>
        let fs := r2.takeWhile Char.isDigit
        if fs.isEmpty then ([], r1) else (fs, r2.dropWhile Char.isDigit)
      | _ => ([], r1)
    let fds := fracPart.1
    let r2 := fracPart.2
    let expPart : Option Int × List Char := match r2 with
      | e :: r3 =>
        if e = 'e' || e = 'E' then
          let esigned : Bool × List Char := match r3 with
            | '+' :: r4 => (false, r4)
            | '-' :: r4 => (true, r4)
            | _ => (false, r3)
          let eds := esigned.2.takeWhile Char.isDigit
          if eds.isEmpty then (none, r2)
          else
            let ev : Int := digitsToNat eds
            (some (if esigned.1 then -ev else ev), esigned.2.dropWhile Char.isDigit)
        else (none, r2)
      | [] => (none, r2)
    let mAbs : Nat := digitsToNat (ids ++ fds)
    let m : Int := if neg then -(mAbs : Int) else (mAbs : Int)
    match fds, expPart.1 with
    | [], none => some (.jint m, r2)
    | _, _ =>
      let e : Int := expPart.1.getD 0 - fds.length
      some (.jfloat (ratOfSci m e), expPart.2)

mutual

/-- One JSON value (skipping leading whitespace), per Python's `json.loads`
grammar including the `NaN`/`Infinity`/`-Infinity` extensions. -/
def parseVal : Nat → List Char → Option (JVal × List Char)
  | 0, _ => none
  | fuel + 1, cs0 =>
    let cs := skipWs cs0
    match cs with
    | [] => none
    | '{' :: r =>
      let r2 := skipWs r
      (match r2 with
       | '}' :: r3 => some (.jobj [], r3)
       | _ => parseMembers fuel r2 [])
    | '[' :: r =>
      let r2 := skipWs r
      (match r2 with
       | ']' :: r3 => some (.jarr [], r3)
       | _ => parseItems fuel r2 [])
    | '"' :: r =>
      (match parseJStr r with
       | some (s, rest) => some (.jstr s, rest)
       | none => none)
    | _ =>
      match matchLit "true".data cs with
      | some r => some (.jbool true, r)
      | none =>
      match matchLit "false".data cs with
      | some r => some (.jbool false, r)
      | none =>
      match matchLit "null".data cs with
      | some r => some (.jnull, r)
      | none =>
      match matchLit "NaN".data cs with
      | some r => some (.jnan, r)
      | none =>
      match matchLit "Infinity".data cs with
      | some r => some (.jinf false, r)
      | none =>
      match matchLit "-Infinity".data cs with
      | some r => some (.jinf true, r)
      | none => parseNumber cs

/-- Members of a JSON object after the opening brace (first member onwards). -/
def parseMembers : Nat → List Char → List (String × JVal) → Option (JVal × List Char)
  | 0, _, _ => none
  | fuel + 1, cs0, acc =>
    let cs := skipWs cs0
    match cs with
    | '"' :: r =>
      (match parseJStr r with
       | none => none
       | some (k, r1) =>
         match skipWs r1 with
         | ':' :: r2 =>
           (match parseVal fuel r2 with
            | none => none
            | some (v, r3) =>
              match skipWs r3 with
              | ',' :: r4 => parseMembers fuel r4 (acc ++ [(k, v)])
              | '}' :: r4 => some (.jobj (acc ++ [(k, v)]), r4)
              | _ => none)
         | _ => none)
    | _ => none

/-- Items of a JSON array after the opening bracket (first item onwards). -/
def parseItems : Nat → List Char → List JVal → Option (JVal × List Char)
  | 0, _, _ => none
  | fuel + 1, cs0, acc =>
    match parseVal fuel cs0 with
    | none => none
    | some (v, r1) =>
      match skipWs r1 with
      | ',' :: r2 => parseItems fuel r2 (acc ++ [v])
      | ']' :: r2 => some (.jarr (acc ++ [v]), r2)
      | _ => none

end

/-- Model of `json.loads`: `none` is a raised `JSONDecodeError` (including
trailing-garbage "Extra data"); `some v` is the parsed value. -/
def loads (s : String) : Option JVal :=
  match parseVal (s.data.length + 1) s.data with
  | some (v, rest) => if (skipWs rest).isEmpty then some v else none
  | none => none

/-- Python `bytes.decode('unicode_escape')` (exact for ASCII input), as used
by `_extract_json`; `none` is a `UnicodeDecodeError`.  Fuel-indexed (every
step consumes at least one character, so `length + 1` fuel suffices). -/
def uescAux : Nat → List Char → List Char → Option (List Char)
  | _, [], acc => some acc.reverse
  | 0, _ :: _, _ => none
  | _ + 1, ['\\'], _ => none
  | fuel + 1, '\\' :: '\n' :: rest, acc => uescAux fuel rest acc
  | fuel + 1, '\\' :: '\\' :: rest, acc => uescAux fuel rest ('\\' :: acc)
  | fuel + 1, '\\' :: '\'' :: rest, acc => uescAux fuel rest ('\'' :: acc)
  | fuel + 1, '\\' :: '"' :: rest, acc => uescAux fuel rest ('"' :: acc)
  | fuel + 1, '\\' :: 'a' :: rest, acc => uescAux fuel rest ('\x07' :: acc)
  | fuel + 1, '\\' :: 'b' :: rest, acc => uescAux fuel rest ('\x08' :: acc)
  | fuel + 1, '\\' :: 'f' :: rest, acc => uescAux fuel rest ('\x0c' :: acc)
  | fuel + 1, '\\' :: 'n' :: rest, acc => uescAux fuel rest ('\n' :: acc)
  | fuel + 1, '\\' :: 'r' :: rest, acc => uescAux fuel rest ('\r' :: acc)
  | fuel + 1, '\\' :: 't' :: rest, acc => uescAux fuel rest ('\t' :: acc)
  | fuel + 1, '\\' :: 'v' :: rest, acc => uescAux fuel rest ('\x0b' :: acc)
  | fuel + 1, '\\' :: 'x' :: h1 :: h2 :: rest, acc =>
    (match hexVal? h1, hexVal? h2 with
     | some a, some b => uescAux fuel rest (mkCodepoint (a * 16 + b) :: acc)
     | _, _ => none)
  | fuel + 1, '\\' :: 'u' :: h1 :: h2 :: h3 :: h4 :: rest, acc =>
    (match hexVal? h1, hexVal? h2, hexVal? h3, hexVal? h4 with
     | some a, some b, some c, some d =>
       uescAux fuel rest (mkCodepoint ((((a * 16 + b) * 16 + c) * 16 + d)) :: acc)
     | _, _, _, _ => none)
  | fuel + 1, '\\' :: c :: rest, acc =>
    (match octVal? c with
     | some d1 =>
       (match rest with
        | c2 :: rest2 =>
          (match octVal? c2 with
           | some d2 =>
             (match rest2 with
              | c3 :: rest3 =>
                (match octVal? c3 with
                 | some d3 => uescAux fuel rest3 (mkCodepoint (d1 * 64 + d2 * 8 + d3) :: acc)
                 | none => uescAux fuel rest2 (mkCodepoint (d1 * 8 + d2) :: acc))
              | [] => uescAux fuel rest2 (mkCodepoint (d1 * 8 + d2) :: acc))
           | none => uescAux fuel rest (mkCodepoint d1 :: acc))
        | [] => uescAux fuel rest (mkCodepoint d1 :: acc))
     | none =>
       if c = 'x' || c = 'u' || c = 'U' || c = 'N' then none
       else uescAux fuel rest (c :: '\\' :: acc))
  | fuel + 1, c :: rest, acc => uescAux fuel rest (c :: acc)

def unicodeEscape (s : String) : Option String :=
  (uescAux (s.data.length + 1) s.data []).map String.mk

/- ---------- Python string helpers ---------- -/

/-- The whitespace removed by Python `str.strip()` / split by `str.split()`
(ASCII fragment). -/
def isPySpace (c : Char) : Bool :=
  c = ' ' || c = '\t' || c = '\n' || c = '\r' || c = '\x0b' || c = '\x0c'

def stripL (l : List Char) : List Char :=
  ((l.dropWhile isPySpace).reverse.dropWhile isPySpace).reverse

/-- Python `str.strip()`. -/
def pystrip (s : String) : String := String.mk (stripL s.data)

/-- Worker for Python `str.split()` (split on whitespace runs, no empties). -/
def wordsAux : List Char → List Char → List String
  | [], acc => if acc.isEmpty then [] else [String.mk acc.reverse]
  | c :: cs, acc =>
    if isPySpace c then
      if acc.isEmpty then wordsAux cs [] else String.mk acc.reverse :: wordsAux cs []
    else wordsAux cs (c :: acc)

/-- Python `str.split()` with no argument. -/
def pysplitWs (s : String) : List String := wordsAux s.data []

/-- Worker for `re.split(r"[\n;,]", v)`: split on every single occurrence of
newline, semicolon or comma (keeping empty segments). -/
def splitSepAux : List Char → List Char → List String
  | [], acc => [String.mk acc.reverse]
  | c :: cs, acc =>
    if c = '\n' || c = ';' || c = ',' then
      String.mk acc.reverse :: splitSepAux cs []
    else splitSepAux cs (c :: acc)

def splitAnySep (s : String) : List String := splitSepAux s.data []

/- ---------- Python value helpers ---------- -/

/-- Remove as many factors `p` as possible: (count, remainder). -/
def stripFac : Nat → Nat → Nat → Nat × Nat
  | _, 0, d => (0, d)
  | p, fuel + 1, d =>
    if d % p = 0 && d != 0 then
      let r := stripFac p fuel (d / p)
      (r.1 + 1, r.2)
    else (0, d)

/-- Python `str()` of a float whose value is an exact decimal (the only floats
produced by the JSON parser); other rationals get a fallback rendering.
The e-notation CPython uses for very large/small magnitudes is not modelled. -/
def floatRepr (q : Rat) : String :=
  let s2 := stripFac 2 q.den q.den
  let s5 := stripFac 5 s2.2 s2.2
  if s5.2 = 1 then
    let k := max s2.1 s5.1
    let m : Int := q.num * ((10 ^ k : Nat) : Int) / (q.den : Int)
    let ds0 := toString m.natAbs
    let ds := if ds0.length < k + 1 then
        String.mk (List.replicate (k + 1 - ds0.length) '0') ++ ds0
      else ds0
    (if q.num < 0 then "-" else "") ++
      (if k = 0 then ds ++ ".0" else ds.take (ds.length - k) ++ "." ++ ds.drop (ds.length - k))
  else toString q.num ++ "/" ++ toString q.den

def reprEscChar (quote : Char) (c : Char) : String :=
  if c = '\\' then "\\\\"
  else if c = quote then "\\" ++ String.mk [quote]
  else if c = '\n' then "\\n"
  else if c = '\r' then "\\r"
  else if c = '\t' then "\\t"
  else String.mk [c]

/-- Python `repr()` of a string (quote choice as CPython; `\xXX` escaping of
other non-printables not modelled). -/
def strRepr (s : String) : String :=
  let q := if s.data.contains '\'' && !(s.data.contains '"') then '"' else '\''
  String.mk [q] ++ String.join (s.data.map (reprEscChar q)) ++ String.mk [q]

mutual

/-- Python `repr()` of a parsed JSON value. -/
def pyRepr : JVal → String
  | .jnull => "None"
  | .jbool true => "True"
  | .jbool false => "False"
  | .jint n => toString n
  | .jfloat q => floatRepr q
  | .jnan => "nan"
  | .jinf true => "-inf"
  | .jinf false => "inf"
  | .jstr s => strRepr s
  | .jarr xs => "[" ++ String.intercalate ", " (pyReprList xs) ++ "]"
  | .jobj kvs => "\x7b" ++ String.intercalate ", " (pyReprKVs kvs) ++ "\x7d"

def pyReprList : List JVal → List String
  | [] => []
  | v :: vs => pyRepr v :: pyReprList vs

def pyReprKVs : List (String × JVal) → List String
  | [] => []
  | (k, v) :: kvs => (strRepr k ++ ": " ++ pyRepr v) :: pyReprKVs kvs

end

/-- Python `str()` of a parsed JSON value. -/
def pyStr : JVal → String
  | .jstr s => s
  | v => pyRepr v

/-- Python truthiness of a parsed JSON value. -/
def pyTruthyJ : JVal → Bool
  | .jnull => false
  | .jbool b => b
  | .jint n => n != 0
  | .jfloat q => q != 0
  | .jnan => true
  | .jinf _ => true
  | .jstr s => s != ""
  | .jarr xs => !xs.isEmpty
  | .jobj kvs => !kvs.isEmpty

/-- Truthiness of a Python variable that may hold `None` (either the `none`
bookkeeping value for a raised-and-caught parse, or an explicit JSON null). -/
def pyTruthy : Option JVal → Bool
  | none => false
  | some v => pyTruthyJ v

/-- Python `x is None` (JSON null and the absent value are the same `None`). -/
def pyIsNone : Option JVal → Bool
  | none => true
  | some .jnull => true
  | _ => false

/-- Collapse the unobservable difference between `none` and `some jnull`
(both are Python `None`). -/
def pyNorm : Option JVal → Option JVal
  | some .jnull => none
  | v => v

/-- Python dict lookup `d.get(k)` (last occurrence wins, as when a dict is
built from a JSON object with duplicate keys). -/
def dictGet? (d : PyDict) (k : String) : Option JVal :=
  (d.reverse.find? (fun p => p.1 == k)).map (fun p => p.2)

/-- Python `d.get(k, dflt)`. -/
def dictGetD (d : PyDict) (k : String) (dflt : JVal) : JVal :=
  (dictGet? d k).getD dflt

def hasKey (d : PyDict) (k : String) : Bool := d.any (fun p => p.1 == k)

/-- Python `d.setdefault(k, v)` (the resulting dict). -/
def setdefault (d : PyDict) (k : String) (v : JVal) : PyDict :=
  if hasKey d k then d else d ++ [(k, v)]

/-- Python `int(s)` for a string (sign, ASCII digits, surrounding whitespace;
the underscore digit-grouping of CPython is not modelled). -/
def pyIntOfStr? (s : String) : Option Int :=
  let t := stripL s.data
  let signed : Bool × List Char := match t with
    | '-' :: r => (true, r)
    | '+' :: r => (false, r)
    | _ => (false, t)
  let ds := signed.2
  if !ds.isEmpty && ds.all Char.isDigit then
    some (if signed.1 then -(digitsToNat ds : Int) else (digitsToNat ds : Int))
  else none

/-- Python `int(float)`: truncation toward zero. -/
def ratTrunc (q : Rat) : Int := if q < 0 then -((-q).floor) else q.floor

/-- Python `int(v)` on a parsed JSON value; `none` is a raised
`ValueError`/`TypeError`/`OverflowError`. -/
def pyIntCoerce : JVal → Option Int
  | .jint n => some n
  | .jbool b => some (if b then 1 else 0)
  | .jfloat q => some (ratTrunc q)
  | .jstr s => pyIntOfStr? s
  | _ => none

/- ---------- Structured output extraction (tools.py) ---------- -/

/-- Model of `re.search(r"\x7b[\s\S]*\x7d", text)` (greedy): the span from the
first opening brace to the last closing brace, provided the latter comes
after the former. -/
def braceBlock (s : String) : Option String :=
  let cs := s.data
  match cs.findIdx? (fun c => c = '{') with
  | none => none
  | some i =>
    match cs.reverse.findIdx? (fun c => c = '}') with
    | none => none
    | some rj =>
      let j := cs.length - 1 - rj
      if i < j then some (String.mk ((cs.drop i).take (j - i + 1))) else none

/-- First occurrence of `sep` in the text: (chars before it, chars after it).
Fuel-indexed (length + 1 suffices). -/
def findSubAux (sep : List Char) : Nat → List Char → List Char →
    Option (List Char × List Char)
  | 0, _, _ => none
  | fuel + 1, cs, acc =>
    match matchLit sep cs with
    | some rest => some (acc.reverse, rest)
    | none =>
      match cs with
      | [] => none
      | c :: cs1 => findSubAux sep fuel cs1 (c :: acc)

def findSub (sep : List Char) (cs : List Char) : Option (List Char × List Char) :=
  findSubAux sep (cs.length + 1) cs []

/-- Model of `re.search(r"<JSON>([\s\S]*?)</JSON>", text)` (lazy): the text
between the first `<JSON>` and the first `</JSON>` after it. -/
def jsonTag (s : String) : Option String :=
  match findSub "<JSON>".data s.data with
  | none => none
  | some (_, after) =>
    match findSub "</JSON>".data after with
    | none => none
    | some (inner, _) => some (String.mk inner)

/-- The inline extraction step of `generate_question` (tools.py lines 92-101):
`json.loads` on the whole text, else `json.loads` on the greedy brace block. -/
def genExtract (text : String) : Option JVal :=
  match loads text with
  | some v => some v
  | none =>
    match braceBlock text with
    | some b => loads b
    | none => none

/-- `text.startswith('"') and text.endswith('"')` or same with `'`. -/
def startsEndsQuote (text : String) : Bool :=
  !text.isEmpty &&
    ((text.front = '"' && text.back = '"') || (text.front = '\'' && text.back = '\''))

/-- `_extract_json` of tools.py (lines 126-161): whole-text parse (re-parsing
a string result once), then quote-stripping with `unicode_escape`, then the
greedy brace block with an `unicode_escape` retry. -/
def extractJson (text : String) : Option JVal :=
  match loads text with
  | some (.jstr s) =>
    (match loads s with
     | some v => some v
     | none => none)
  | some v => some v
  | none =>
    let step2 : Option JVal :=
      if startsEndsQuote text then
        match unicodeEscape ((text.drop 1).dropRight 1) with
        | some unq => loads unq
        | none => none
      else none
    match step2 with
    | some v => some v
    | none =>
      match braceBlock text with
      | some cand =>
        (match loads cand with
         | some v => some v
         | none =>
           match unicodeEscape cand with
           | some c2 => loads c2
           | none => none)
      | none => none

/- ---------- Resilient invoker (_invoke_with_timeout) ---------- -/

/-- Outcome of one attempt of the remote call (the oracle). -/
inductive CallOutcome where
  | timeout
  | failure (msg : String)
  | success (content : Option String)

def isFail : CallOutcome → Bool
  | .success _ => false
  | _ => true

/-- Terminal error of `_invoke_with_timeout`: the `RuntimeError` raised after
the last attempt (timeout vs. transport failure, with the values interpolated
into the message). -/
inductive InvokeErr where
  | timedOut (timeoutSecs : Int) (attempts : Nat)
  | failed (attempt : Nat) (msg : String)

/-- Observable behaviour of one `_invoke_with_timeout` run: the returned
content or terminal error, the `time.sleep` durations in order, and the
number of attempts made. -/
structure InvokeTrace where
  result : Except InvokeErr (Option String)
  sleeps : List Rat
  attempts : Nat

/-- The retry loop of `_invoke_with_timeout` (tools.py lines 51-71), from
`attempt` with `rem` further attempts allowed. -/
def invokeGo (oc : Nat → CallOutcome) (b : Rat) (ts : Int) (ta : Nat) :
    Nat → Nat → InvokeTrace
  | attempt, 0 =>
    (match oc attempt with
     | .success c => ⟨.ok c, [], 1⟩
     | .timeout => ⟨.error (.timedOut ts ta), [], 1⟩
     | .failure m => ⟨.error (.failed attempt m), [], 1⟩)
  | attempt, rem + 1 =>
    (match oc attempt with
     | .success c => ⟨.ok c, [], 1⟩
     | _ =>
       let t := invokeGo oc b ts ta (attempt + 1) rem
       ⟨t.result, b ^ (attempt - 1) :: t.sleeps, t.attempts + 1⟩)

/-- Python `timeout or LLM_INVOKE_TIMEOUT` (`None` and `0` fall back). -/
def pyOrInt (t : Option Int) (dflt : Int) : Int :=
  match t with
  | none => dflt
  | some v => if v = 0 then dflt else v

/-- `_invoke_with_timeout` (tools.py lines 38-71):
`attempts = 1 + max(0, LLM_INVOKE_RETRIES)`; attempt counter starts at 1;
sleep `backoff ** (attempt - 1)` between failed attempts. -/
def invokeWithTimeout (oc : Nat → CallOutcome) (t : Option Int) (dflt : Int)
    (retries : Int) (b : Rat) : InvokeTrace :=
  invokeGo oc b (pyOrInt t dflt) ((1 + max 0 retries).toNat) 1
    ((1 + max 0 retries).toNat - 1)

/- ---------- Feedback validation (_validate_feedback) ---------- -/

/-- `_ensure_list` of tools.py (lines 170-179): `None` (or absent) to `[]`,
lists pass through, strings split on newline/semicolon/comma into trimmed
non-empty segments, any other value to `[str(v)]`. -/
def ensureList : Option JVal → List JVal
  | none => []
  | some .jnull => []
  | some (.jarr xs) => xs
  | some (.jstr s) =>
    (((splitAnySep s).map pystrip).filter (fun t => t ≠ "")).map .jstr
  | some v => [.jstr (pyStr v)]

/-- An optional integer as the JSON value stored for `rating`. -/
def intOrNull : Option Int → JVal
  | some n => .jint n
  | none => .jnull

/-- The `rating` coercion of `_validate_feedback` (tools.py lines 165-168):
`int(d.get('rating'))` guarded by `is not None`, with failures giving null. -/
def ratingCoerce (v : Option JVal) : JVal :=
  match v with
  | none => .jnull
  | some .jnull => .jnull
  | some w => intOrNull (pyIntCoerce w)

/-- `_validate_feedback` of tools.py (lines 163-184). -/
def validateFeedback (d : PyDict) : PyDict :=
  [("rating", ratingCoerce (dictGet? d "rating")),
   ("strengths", .jarr (ensureList (dictGet? d "strengths"))),
   ("weaknesses", .jarr (ensureList (dictGet? d "weaknesses"))),
   ("suggestions", .jarr (ensureList (dictGet? d "suggestions")))]

/- ---------- Answer evaluation (evaluate_answer / evaluate_answer_safe) ---------- -/

/-- Cause of a `RuntimeError` raised by `evaluate_answer`. -/
inductive EvalError where
  | invocation (e : InvokeErr)
  | attrGet

/-- The tail of `evaluate_answer` (tools.py lines 208-214): raw-feedback
record on a missed parse, else validate (a non-dict parse hits `.get` of a
non-dict and raises). -/
def evalFinish (text : String) (parsed : Option JVal) : Except EvalError PyDict :=
  if pyIsNone parsed then .ok [("raw_feedback", .jstr text)]
  else
    match parsed with
    | some (.jobj kvs) => .ok (validateFeedback kvs ++ [("raw", .jobj kvs)])
    | _ => .error .attrGet

/-- `evaluate_answer` of tools.py (lines 121-218), parameterised by the
outcomes of its (at most two) LLM invocations.  The question/answer only
flow into the prompts, which the oracle already accounts for. -/
def evaluateAnswer (inv1 inv2 : Except InvokeErr (Option String))
    (_question _answer : String) : Except EvalError PyDict :=
  match inv1 with
  | .error e => .error (.invocation e)
  | .ok p1 =>
    if pyIsNone (extractJson (pystrip (p1.getD ""))) then
      match inv2 with
      | .error e => .error (.invocation e)
      | .ok p2 =>
        (match jsonTag (pystrip (p2.getD "")) with
         | some inner => evalFinish (pystrip (p1.getD "")) (extractJson inner)
         | none => evalFinish (pystrip (p1.getD "")) none)
    else evalFinish (pystrip (p1.getD "")) (extractJson (pystrip (p1.getD "")))

/-- The fixed-shape record `evaluate_answer_safe` substitutes on failure
(tools.py lines 230-236). -/
def defaultSafeRecord (answer : String) : PyDict :=
  [("rating", .jnull),
   ("strengths", .jarr []),
   ("weaknesses", .jarr []),
   ("suggestions", .jarr []),
   ("raw_feedback",
     .jstr ("LLM failed or returned invalid JSON for answer: " ++ answer.take 200))]

/-- The `setdefault` chain of `evaluate_answer_safe` (tools.py lines 238-242). -/
def applySetdefaults (d : PyDict) : PyDict :=
  setdefault (setdefault (setdefault (setdefault (setdefault d
    "rating" .jnull) "strengths" (.jarr [])) "weaknesses" (.jarr []))
    "suggestions" (.jarr [])) "raw_feedback" .jnull

/-- The post-processing of `evaluate_answer_safe` applied to the outcome of
`evaluate_answer` (exception to `None` to default; empty dict to default;
else the setdefault chain). -/
def safePost (r : Except EvalError PyDict) (answer : String) : PyDict :=
  match r with
  | .error _ => defaultSafeRecord answer
  | .ok fb => if fb.isEmpty then defaultSafeRecord answer else applySetdefaults fb

/-- `evaluate_answer_safe` of tools.py (lines 221-243). -/
def evaluateAnswerSafe (inv1 inv2 : Except InvokeErr (Option String))
    (question answer : String) : PyDict :=
  safePost (evaluateAnswer inv1 inv2 question answer) answer

/- ---------- Question generation (generate_question) ---------- -/

/-- Cause of a `RuntimeError` raised by `generate_question`: a terminal
invocation failure, the `AttributeError` from `.get` on a non-dict parse, or
the `IndexError` from `job_description.split()[0]` on a blank description. -/
inductive GenError where
  | invocation (e : InvokeErr)
  | attrGet
  | indexEmpty

/-- The record `generate_question` returns: `{"question": ..., "parsed": ...}`. -/
structure QRecord where
  question : String
  parsed : PyDict

/-- The `question` coercion of tools.py line 113: keep the value if it is a
string, else `str(parsed.get('question', ''))` stripped. -/
def questionCoerce (kvs : PyDict) : String :=
  match dictGet? kvs "question" with
  | some (.jstr s) => s
  | _ => pystrip (pyStr (dictGetD kvs "question" (.jstr "")))

/-- The templated fallback question (tools.py line 110), from the first
whitespace-separated word of the job description. -/
def fallbackQuestionOf (w : String) : String :=
  "Based on the job description, can you tell me about your experience related to "
    ++ w ++ "?"

/-- The fallback parsed record of tools.py lines 104-111. -/
def fallbackParsed (jd : String) (w : String) : PyDict :=
  [("role", .jstr (((jd.splitOn "\n").headD "").take 60)),
   ("seniority", .jstr "unspecified"),
   ("skills", .jstr ""),
   ("job_type", .jstr "unspecified"),
   ("location", .jstr "unspecified"),
   ("question", .jstr (fallbackQuestionOf w))]

/-- `generate_question` of tools.py (lines 74-118), parameterised by the
outcome of its LLM invocation. -/
def generateQuestion (inv : Except InvokeErr (Option String)) (jd : String) :
    Except GenError QRecord :=
  match inv with
  | .error e => .error (.invocation e)
  | .ok p =>
    if pyTruthy (genExtract (pystrip (p.getD ""))) then
      match genExtract (pystrip (p.getD "")) with
      | some (.jobj kvs) => .ok ⟨questionCoerce kvs, kvs⟩
      | _ => .error .attrGet
    else
      match pysplitWs jd with
      | [] => .error .indexEmpty
      | w :: _ => .ok ⟨questionCoerce (fallbackParsed jd w), fallbackParsed jd w⟩

/- ---------- Session orchestration (api.py) ---------- -/

/-- Session status tag. -/
inductive SessStatus where
  | pending
  | ready
  | error
deriving DecidableEq

/-- Evaluation sub-state status tag. -/
inductive EvalStatus where
  | idle
  | pending
  | ready
  | error
deriving DecidableEq

/-- The `evaluation` sub-record of a session (api.py lines 64-69). -/
structure EvalState where
  status : EvalStatus
  last_feedback : Option PyDict
  next_question : Option String
  error : Option String

/-- One `{question, answer, feedback}` triple of the answers history. -/
structure AnswerTriple where
  question : String
  answer : String
  feedback : PyDict

/-- One entry of `INTERVIEW_SESSIONS` (api.py lines 56-70).  `questions`
holds `Option String` because `_bg_evaluate_answer` appends `None` when
next-question generation fails (api.py lines 147-150). -/
structure Session where
  job_description : String
  parsed : Option PyDict
  questions : List (Option String)
  answers : List AnswerTriple
  log : List String
  status : SessStatus
  error : Option String
  evaluation : EvalState

/-- The fresh session record created by `start_interview`. -/
def initSession (jd : String) : Session :=
  { job_description := jd
    parsed := none
    questions := []
    answers := []
    log := []
    status := .pending
    error := none
    evaluation := { status := .idle, last_feedback := none, next_question := none, error := none } }

/-- Rendering of the `RuntimeError` message (only its presence matters to the
session state; the exact Python interpolation is abbreviated). -/
def renderGenError : GenError → String
  | .invocation (.timedOut ts ta) =>
    "Failed to generate question: LLM call timed out after " ++ toString ts ++
      " seconds (attempts=" ++ toString ta ++ ")"
  | .invocation (.failed a m) =>
    "Failed to generate question: LLM invocation failed after " ++ toString a ++
      " attempts: " ++ m
  | .attrGet => "Failed to generate question: attribute error"
  | .indexEmpty => "Failed to generate question: list index out of range"

/-- `_bg_generate_first_question` (api.py lines 78-101), parameterised by the
outcome of `generate_question`. -/
def bgGenerateFirstQuestion (gr : Except GenError QRecord) (s : Session) : Session :=
  match gr with
  | .ok r =>
    { s with
      parsed := some r.parsed
      questions := s.questions ++ [some r.question]
      status := .ready
      evaluation := { s.evaluation with status := .idle }
      log := s.log ++ ["bg_generate_first_question: start",
        "bg_generate_first_question: question ready (" ++ toString r.question.length ++ " chars)"] }
  | .error e =>
    { s with
      status := .error
      error := some (renderGenError e)
      log := s.log ++ ["bg_generate_first_question: start",
        "bg_generate_first_question: exception: " ++ renderGenError e] }

/-- The synchronous part of the `answer_question` handler on an existing
session (api.py lines 111-112): evaluation goes `pending`, prior evaluation
error cleared. -/
def answerQuestionMark (s : Session) : Session :=
  { s with evaluation := { s.evaluation with status := .pending, error := none } }

/-- `_bg_evaluate_answer` (api.py lines 118-157).  `er` is the outcome of the
`evaluate_answer_safe` call (an `error` models the defensive except-branch:
the safe wrapper itself raising); `gr` the outcome of the next-question
`generate_question` call. -/
def bgEvaluateAnswer (er : Except String PyDict) (gr : Except GenError QRecord)
    (q a : String) (s : Session) : Session :=
  match er with
  | .error msg =>
    { s with
      evaluation := { s.evaluation with status := .error, error := some msg }
      log := s.log ++ ["bg_evaluate_answer: start",
        "bg_evaluate_answer: exception: " ++ msg] }
  | .ok fb =>
    let rawLog : List String :=
      match dictGet? fb "raw_feedback" with
      | some v => if pyTruthyJ v then ["raw_feedback_snippet: " ++ (pyStr v).take 400] else []
      | none => []
    let nextq : Option String := match gr with
      | .ok r => some r.question
      | .error _ => none
    { s with
      answers := s.answers ++ [⟨q, a, fb⟩]
      questions := s.questions ++ [nextq]
      evaluation := { s.evaluation with
        status := .ready
        last_feedback := some fb
        next_question := nextq }
      log := s.log ++ ["bg_evaluate_answer: start", "bg_evaluate_answer: evaluator returned"]
        ++ rawLog ++ ["bg_evaluate_answer: finished, evaluation ready"] }

/-- A state-mutating operation on one session (the `answer_question` handler
and the two background units; `get_status` is the pure read `statusRead`). -/
inductive SessOp where
  | answerMark
  | bgGen (gr : Except GenError QRecord)
  | bgEval (er : Except String PyDict) (gr : Except GenError QRecord) (q a : String)

def applySessOp : SessOp → Session → Session
  | .answerMark, s => answerQuestionMark s
  | .bgGen gr, s => bgGenerateFirstQuestion gr s
  | .bgEval er gr q a, s => bgEvaluateAnswer er gr q a s

/-- The payload of the `status` endpoint (api.py lines 160-172). -/
structure StatusPayload where
  status : SessStatus
  question : Option String
  error : Option String
  evaluation : EvalState
  log : List String

/-- `status` endpoint read (api.py lines 165-172): the question shown is
`questions[-1]` if the list is non-empty (which may itself be `None`). -/
def statusRead (s : Session) : StatusPayload :=
  { status := s.status
    question := match s.questions.getLast? with
      | some q => q
      | none => none
    error := s.error
    evaluation := s.evaluation
    log := s.log }

/-- The response of `start_interview` (api.py lines 38-41, 75). -/
structure StartResp where
  session_id : String
  question : String

abbrev SessionStore := List (String × Session)

/-- `start_interview` (api.py lines 49-75): result is (store after the call,
scheduled background-task session ids, response-or-HTTP-error).  A `none`
job description models a request the validation layer rejects before the
handler runs (absent required field); the handler itself rejects blank
descriptions with a 400 before creating any state. -/
def startInterview (jd : Option String) (store : SessionStore) (sid : String) :
    SessionStore × List String × Except String StartResp :=
  match jd with
  | none => (store, [], .error "validation error: job_description is required")
  | some j =>
    if pystrip j = "" then
      (store, [], .error "Please provide a job description or topic for a mock interview.")
    else
      (store ++ [(sid, initSession j)], [sid], .ok ⟨sid, ""⟩)


/- ---------- Definitions used to state the claims ---------- -/

/-- A call oracle that times out once and then succeeds. -/
def ocW : Nat → CallOutcome := fun i => if i = 1 then .timeout else .success (some "ok")

/-- The stored value is an integer or null. -/
def isIntOrNullV : Option JVal → Bool
  | some .jnull => true
  | some (.jint _) => true
  | _ => false

/-- The stored value is a list. -/
def isListV : Option JVal → Bool
  | some (.jarr _) => true
  | _ => false

/-- The stored value is a string or null. -/
def isStrOrNullV : Option JVal → Bool
  | some .jnull => true
  | some (.jstr _) => true
  | _ => false

/-- The record shape `evaluate_answer_safe` guarantees: all five keys present,
`rating` an integer or null, the three list fields lists, `raw_feedback` a
string or null. -/
def feedbackShapeOK (d : PyDict) : Bool :=
  hasKey d "rating" && hasKey d "strengths" && hasKey d "weaknesses" &&
  hasKey d "suggestions" && hasKey d "raw_feedback" &&
  isIntOrNullV (dictGet? d "rating") && isListV (dictGet? d "strengths") &&
  isListV (dictGet? d "weaknesses") && isListV (dictGet? d "suggestions") &&
  isStrOrNullV (dictGet? d "raw_feedback")

/-- Non-string, non-container scalars (the "any other scalar" of the spec). -/
def scalarNonStr : JVal → Bool
  | .jbool _ => true
  | .jint _ => true
  | .jfloat _ => true
  | .jnan => true
  | .jinf _ => true
  | _ => false

/-- A parsed value that is a dict. -/
def isDictJ : JVal → Bool
  | .jobj _ => true
  | _ => false

/-- The trimmed non-empty segments of splitting on newline/semicolon/comma
(the coercion the spec describes for string-valued list fields). -/
def specSegments (s : String) : List String :=
  ((splitAnySep s).map pystrip).filter (fun t => t ≠ "")

/-- The claim's coercion cases for one list field `f` of the validated
feedback: lists pass through, strings are split into trimmed non-empty
segments, null/absent becomes the empty list, any other scalar becomes the
one-element list of its string form. -/
def fieldCoerced (d : PyDict) (f : String) : Prop :=
  (dictGet? d f = none → dictGet? (validateFeedback d) f = some (.jarr [])) ∧
  (dictGet? d f = some .jnull → dictGet? (validateFeedback d) f = some (.jarr [])) ∧
  (∀ xs, dictGet? d f = some (.jarr xs) →
    dictGet? (validateFeedback d) f = some (.jarr xs)) ∧
  (∀ s, dictGet? d f = some (.jstr s) →
    dictGet? (validateFeedback d) f = some (.jarr ((specSegments s).map .jstr))) ∧
  (∀ v, dictGet? d f = some v → scalarNonStr v = true →
    dictGet? (validateFeedback d) f = some (.jarr [.jstr (pyStr v)]))

/-- The transitions the claim allows for `evaluation.status` (no change, or
idle to pending to ready/error, or a reset to pending from ready/error). -/
def claimAllowedEvalStep (a b : EvalStatus) : Bool :=
  decide (a = b) ||
  (decide (a = .idle) && decide (b = .pending)) ||
  (decide (a = .pending) && (decide (b = .ready) || decide (b = .error))) ||
  ((decide (a = .ready) || decide (a = .error)) && decide (b = .pending))

/- ==================== Theorems ==================== -/

/-- Attempts made never exceed the attempts remaining plus one. -/
theorem invokeGo_attempts_le (oc : Nat → CallOutcome) (b : Rat) (ts : Int) (ta : Nat) :
    ∀ rem attempt, (invokeGo oc b ts ta attempt rem).attempts ≤ rem + 1 := by
  intro rem
  induction rem with
  | zero =>
    intro attempt
    unfold invokeGo
    cases oc attempt <;> simp
  | succ r ih =>
    intro attempt
    unfold invokeGo
    cases oc attempt <;> simp <;> exact ih (attempt + 1)

/-- If the first `k` attempts from `attempt` fail and the next succeeds,
the loop returns the success with `k` sleeps and `k + 1` attempts. -/
theorem invokeGo_spec (oc : Nat → CallOutcome) (b : Rat) (ts : Int) (ta : Nat)
    (c : Option String) :
    ∀ k attempt rem, 1 ≤ attempt → k ≤ rem →
      (∀ i, attempt ≤ i → i < attempt + k → isFail (oc i) = true) →
      oc (attempt + k) = .success c →
      invokeGo oc b ts ta attempt rem
        = ⟨.ok c, (List.range k).map (fun i => b ^ (attempt - 1 + i)), k + 1⟩ := by
  intro k
  induction k with
  | zero =>
    intro attempt rem _ _ _ hsucc
    rw [Nat.add_zero] at hsucc
    cases rem <;> · unfold invokeGo; rw [hsucc]; rfl
  | succ k ih =>
    intro attempt rem h1 hk hfail hsucc
    have hfa : isFail (oc attempt) = true :=
      hfail attempt (Nat.le_refl _) (Nat.lt_add_of_pos_right (Nat.succ_pos _))
    obtain ⟨r, rfl⟩ : ∃ r, rem = r + 1 := by
      cases rem with
      | zero => omega
      | succ r => exact ⟨r, rfl⟩
    have hrec := ih (attempt + 1) r (by omega) (by omega)
      (fun i hi1 hi2 => hfail i (by omega) (by omega))
      (by rw [show attempt + 1 + k = attempt + (k + 1) by omega]; exact hsucc)
    unfold invokeGo
    cases hoc : oc attempt with
    | success c2 => rw [hoc] at hfa; simp [isFail] at hfa
    | timeout =>
      simp only [hrec]
      refine congrArg (fun l => InvokeTrace.mk (.ok c) l (k + 1 + 1)) ?_
      rw [List.range_succ_eq_map]
      simp only [List.map_cons, List.map_map]
      refine congrArg₂ _ (by rw [Nat.add_zero]) ?_
      apply List.map_congr_left
      intro i _
      simp only [Function.comp]
      congr 1
      omega
    | failure m =>
      simp only [hrec]
      refine congrArg (fun l => InvokeTrace.mk (.ok c) l (k + 1 + 1)) ?_
      rw [List.range_succ_eq_map]
      simp only [List.map_cons, List.map_map]
      refine congrArg₂ _ (by rw [Nat.add_zero]) ?_
      apply List.map_congr_left
      intro i _
      simp only [Function.comp]
      congr 1
      omega

/-- C1: the Resilient Invoker (`_invoke_with_timeout`) makes at most
`1 + retries` attempts; given a call failing `k < retries` times then
succeeding it returns the success result and sleeps exactly `k` times with
durations `backoff^0, ..., backoff^(k-1)`; given `retries = 2` and a call
that always times out, exactly 3 attempts occur and the terminal error is
the timeout error. -/
theorem invoke_retry_backoff_contract :
    (∀ (oc : Nat → CallOutcome) (t : Option Int) (d : Int) (retries : Int) (b : Rat),
       (invokeWithTimeout oc t d retries b).attempts ≤ (1 + max 0 retries).toNat) ∧
    (∀ (oc : Nat → CallOutcome) (t : Option Int) (d : Int) (retries k : Nat) (b : Rat)
       (c : Option String), k < retries →
       (∀ i, 1 ≤ i → i ≤ k → isFail (oc i) = true) →
       oc (k + 1) = .success c →
       invokeWithTimeout oc t d (retries : Int) b
         = ⟨.ok c, (List.range k).map (fun i => b ^ i), k + 1⟩) ∧
    (∀ (t : Option Int) (d : Int) (b : Rat),
       invokeWithTimeout (fun _ => .timeout) t d 2 b
         = ⟨.error (.timedOut (pyOrInt t d) 3), [b ^ 0, b ^ 1], 3⟩) := by
  refine ⟨?_, ?_, ?_⟩
  · intro oc t d retries b
    unfold invokeWithTimeout
    have h := invokeGo_attempts_le oc b (pyOrInt t d) ((1 + max 0 retries).toNat)
      ((1 + max 0 retries).toNat - 1) 1
    omega
  · intro oc t d retries k b c hk hfail hsucc
    unfold invokeWithTimeout
    have hta : ((1 : Int) + max 0 (retries : Int)).toNat = retries + 1 := by omega
    rw [hta]
    have hspec := invokeGo_spec oc b (pyOrInt t d) (retries + 1) c k 1 (retries + 1 - 1)
      (Nat.le_refl 1) (by omega) (fun i h1 h2 => hfail i h1 (by omega))
      (by rwa [Nat.add_comm] at hsucc)
    rw [hspec]
    simp only [Nat.sub_self, Nat.zero_add]
  · intro t d b
    rfl

/-- Witness for C1: one timeout then success under `retries = 2`,
`backoff = 2` gives the success result, one sleep of `2^0`, two attempts. -/
theorem invoke_retry_backoff_contract_witness :
    invokeWithTimeout ocW none 120 ((2 : Nat) : Int) 2
      = ⟨.ok (some "ok"), (List.range 1).map (fun i => (2 : Rat) ^ i), 2⟩ := by
  refine invoke_retry_backoff_contract.2.1 ocW none 120 2 1 2 (some "ok") (by decide) ?_ rfl
  intro i h1 h2
  have hi : i = 1 := le_antisymm h2 h1
  subst hi
  rfl

/-- The rating coercion always stores an integer or null. -/
theorem isIntOrNull_ratingCoerce (v : Option JVal) :
    isIntOrNullV (some (ratingCoerce v)) = true := by
  unfold ratingCoerce
  match v with
  | none => rfl
  | some .jnull => rfl
  | some (.jbool b) => cases h : pyIntCoerce (.jbool b) <;> simp [intOrNull, h, isIntOrNullV]
  | some (.jint n) => cases h : pyIntCoerce (.jint n) <;> simp [intOrNull, h, isIntOrNullV]
  | some (.jfloat q) => cases h : pyIntCoerce (.jfloat q) <;> simp [intOrNull, h, isIntOrNullV]
  | some .jnan => cases h : pyIntCoerce .jnan <;> simp [intOrNull, h, isIntOrNullV]
  | some (.jinf g) => cases h : pyIntCoerce (.jinf g) <;> simp [intOrNull, h, isIntOrNullV]
  | some (.jstr t) => cases h : pyIntCoerce (.jstr t) <;> simp [intOrNull, h, isIntOrNullV]
  | some (.jarr xs) => cases h : pyIntCoerce (.jarr xs) <;> simp [intOrNull, h, isIntOrNullV]
  | some (.jobj kvs) => cases h : pyIntCoerce (.jobj kvs) <;> simp [intOrNull, h, isIntOrNullV]

/-- The default record of the safe wrapper has the guaranteed shape. -/
theorem shape_default (a : String) : feedbackShapeOK (defaultSafeRecord a) = true := rfl

/-- The raw-feedback record, after the setdefault chain, has the shape. -/
theorem shape_raw (t : String) :
    feedbackShapeOK (applySetdefaults [("raw_feedback", .jstr t)]) = true := rfl

/-- The validated record, after the setdefault chain, has the shape. -/
theorem shape_validated (kvs : PyDict) (raw : JVal) :
    feedbackShapeOK (applySetdefaults (validateFeedback kvs ++ [("raw", raw)])) = true := by
  have h1 : applySetdefaults (validateFeedback kvs ++ [("raw", raw)])
      = validateFeedback kvs ++ [("raw", raw), ("raw_feedback", .jnull)] := rfl
  rw [h1]
  have hr : dictGet? (validateFeedback kvs ++ [("raw", raw), ("raw_feedback", .jnull)]) "rating"
      = some (ratingCoerce (dictGet? kvs "rating")) := rfl
  unfold feedbackShapeOK
  rw [hr, isIntOrNull_ratingCoerce (dictGet? kvs "rating")]
  rfl

/-- Whatever `evaluate_answer`'s tail produces, the safe wrapper's
post-processing yields the guaranteed shape. -/
theorem shape_evalFinish (t : String) (p : Option JVal) (a : String) :
    feedbackShapeOK (safePost (evalFinish t p) a) = true := by
  unfold evalFinish
  by_cases h : pyIsNone p = true
  · rw [if_pos h]
    exact shape_raw t
  · rw [if_neg h]
    match p with
    | none => exact shape_default a
    | some .jnull => exact shape_default a
    | some (.jbool b) => exact shape_default a
    | some (.jint n) => exact shape_default a
    | some (.jfloat q) => exact shape_default a
    | some .jnan => exact shape_default a
    | some (.jinf g) => exact shape_default a
    | some (.jstr s) => exact shape_default a
    | some (.jarr xs) => exact shape_default a
    | some (.jobj kvs) => exact shape_validated kvs (.jobj kvs)

/-- C2: for every question and answer (and any invocation outcomes),
`evaluate_answer_safe` returns a dict containing all of `rating`,
`strengths`, `weaknesses`, `suggestions`, `raw_feedback`, with `rating` an
integer or null, the three list fields lists, and `raw_feedback` a string
or null.  (It never raises: `evaluateAnswerSafe` is a total function.) -/
theorem evaluate_answer_safe_shape (inv1 inv2 : Except InvokeErr (Option String))
    (q a : String) :
    feedbackShapeOK (evaluateAnswerSafe inv1 inv2 q a) = true := by
  unfold evaluateAnswerSafe evaluateAnswer
  split
  · exact shape_default a
  · split
    · split
      · exact shape_default a
      · split
        · exact shape_evalFinish _ _ a
        · exact shape_evalFinish _ _ a
    · exact shape_evalFinish _ _ a

/-- C3 counterexample: on the model output `"a"` (a JSON string literal),
the extraction inside `generate_question` keeps the string value while
`_extract_json` re-parses it and reports a miss — the two extraction steps
are not the same function. -/
theorem gen_eval_extraction_differ_cex :
    pyNorm (genExtract "\"a\"") = some (.jstr "a") ∧
    pyNorm (extractJson "\"a\"") = none ∧
    pyNorm (genExtract "\"a\"") ≠ pyNorm (extractJson "\"a\"") := by
  refine ⟨rfl, rfl, ?_⟩
  intro h
  rw [show pyNorm (genExtract "\"a\"") = some (JVal.jstr "a") from rfl,
    show pyNorm (extractJson "\"a\"") = (none : Option JVal) from rfl] at h
  exact Option.noConfusion h

/-- C3 (amended): the two extraction steps agree (with the value parsed from
the whole text) whenever the whole-text `json.loads` succeeds with a
non-string value; they may differ otherwise (string results are re-parsed
only by `_extract_json`, which also strips quote wrappers and retries the
brace block with unescaping). -/
theorem gen_eval_extraction_agree_on_nonstring (t : String) (v : JVal)
    (h : loads t = some v) (hns : ∀ s, v ≠ .jstr s) :
    genExtract t = some v ∧ extractJson t = some v := by
  constructor
  · unfold genExtract
    rw [h]
  · unfold extractJson
    rw [h]
    cases v with
    | jstr s => exact absurd rfl (hns s)
    | jnull => rfl
    | jbool b => rfl
    | jint n => rfl
    | jfloat q => rfl
    | jnan => rfl
    | jinf g => rfl
    | jarr xs => rfl
    | jobj kvs => rfl

/-- Witness for C3's amended theorem at the input `[1]`. -/
theorem gen_eval_extraction_agree_witness :
    genExtract "[1]" = some (.jarr [.jint 1]) ∧ extractJson "[1]" = some (.jarr [.jint 1]) :=
  gen_eval_extraction_agree_on_nonstring "[1]" (.jarr [.jint 1]) rfl
    (fun _ h => JVal.noConfusion h)

/-- `wordsAux` with a non-empty accumulator never returns the empty list. -/
theorem wordsAux_ne_nil_of_acc (l : List Char) :
    ∀ acc : List Char, acc ≠ [] → wordsAux l acc ≠ [] := by
  induction l with
  | nil =>
    intro acc hacc
    unfold wordsAux
    rw [if_neg (by simpa using hacc)]
    exact List.cons_ne_nil _ _
  | cons c cs ih =>
    intro acc hacc
    unfold wordsAux
    by_cases hc : isPySpace c = true
    · rw [if_pos hc, if_neg (by simpa using hacc)]
      exact List.cons_ne_nil _ _
    · rw [if_neg hc]
      exact ih (c :: acc) (List.cons_ne_nil _ _)

/-- A list containing a non-space character splits into at least one word. -/
theorem wordsAux_ne_nil (l : List Char) :
    ∀ acc : List Char, (∃ c ∈ l, isPySpace c = false) → wordsAux l acc ≠ [] := by
  induction l with
  | nil =>
    intro acc h
    obtain ⟨c, hc, _⟩ := h
    exact absurd hc (List.not_mem_nil c)
  | cons c cs ih =>
    intro acc h
    unfold wordsAux
    by_cases hc : isPySpace c = true
    · have hcs : ∃ x ∈ cs, isPySpace x = false := by
        obtain ⟨x, hx, hxs⟩ := h
        rcases List.mem_cons.mp hx with hxc | hxcs
        · rw [hxc] at hxs; rw [hc] at hxs; exact absurd hxs (by simp)
        · exact ⟨x, hxcs, hxs⟩
      rw [if_pos hc]
      by_cases hacc : acc.isEmpty = true
      · rw [if_pos hacc]
        exact ih [] hcs
      · rw [if_neg hacc]
        exact List.cons_ne_nil _ _
    · rw [if_neg hc]
      exact wordsAux_ne_nil_of_acc cs (c :: acc) (List.cons_ne_nil _ _)

/-- A string that is non-blank after `strip()` contains a non-space character. -/
theorem exists_nonspace_of_strip_ne (s : String) (h : pystrip s ≠ "") :
    ∃ c ∈ s.data, isPySpace c = false := by
  by_contra hall
  push_neg at hall
  have hall2 : ∀ c ∈ s.data, isPySpace c = true := by
    intro c hc
    simpa using hall c hc
  have hdrop : s.data.dropWhile isPySpace = [] := List.dropWhile_eq_nil_iff.mpr hall2
  apply h
  unfold pystrip stripL
  rw [hdrop]
  rfl

/-- A non-blank job description has a first word. -/
theorem pysplitWs_ne_nil (s : String) (h : pystrip s ≠ "") :
    ∃ w rest, pysplitWs s = w :: rest := by
  have hne := wordsAux_ne_nil s.data [] (exists_nonspace_of_strip_ne s h)
  match hw : wordsAux s.data [] with
  | [] => exact absurd hw hne
  | w :: rest => exact ⟨w, rest, hw⟩

/-- The templated fallback question is never the empty string. -/
theorem fallbackQuestionOf_ne_empty (w : String) : fallbackQuestionOf w ≠ "" := by
  intro h
  have hlen := congrArg String.length h
  rw [fallbackQuestionOf] at hlen
  simp [String.length_append] at hlen
  exact absurd hlen.1.1 (by decide)

/-- Unfolding of `generate_question` on a successful invocation. -/
theorem generateQuestion_ok (p : Option String) (jd : String) :
    generateQuestion (.ok p) jd =
      if pyTruthy (genExtract (pystrip (p.getD ""))) then
        match genExtract (pystrip (p.getD "")) with
        | some (.jobj kvs) => .ok ⟨questionCoerce kvs, kvs⟩
        | _ => .error .attrGet
      else
        match pysplitWs jd with
        | [] => .error .indexEmpty
        | w :: _ => .ok ⟨questionCoerce (fallbackParsed jd w), fallbackParsed jd w⟩ := rfl

/-- When extraction yields a falsy value and the job description is
non-blank, `generate_question` returns the fallback record. -/
theorem generateQuestion_fallback_eq (jd : String) (p : Option String)
    (hjd : pystrip jd ≠ "")
    (hfalse : pyTruthy (genExtract (pystrip (p.getD ""))) = false) :
    ∃ w rest, pysplitWs jd = w :: rest ∧
      generateQuestion (.ok p) jd = .ok ⟨fallbackQuestionOf w, fallbackParsed jd w⟩ := by
  obtain ⟨w, rest, hw⟩ := pysplitWs_ne_nil jd hjd
  refine ⟨w, rest, hw, ?_⟩
  rw [generateQuestion_ok, hfalse]
  simp only [Bool.false_eq_true, if_false]
  rw [hw]
  rfl

/-- When extraction yields a non-empty dict, `generate_question` returns the
record built from it. -/
theorem generateQuestion_dict_eq (jd : String) (p : Option String) (kvs : PyDict)
    (hkvs : genExtract (pystrip (p.getD "")) = some (.jobj kvs)) (hne : kvs ≠ []) :
    generateQuestion (.ok p) jd = .ok ⟨questionCoerce kvs, kvs⟩ := by
  rw [generateQuestion_ok, hkvs]
  have htr : pyTruthy (some (.jobj kvs)) = true := by
    cases kvs with
    | nil => exact absurd rfl hne
    | cons a l => rfl
  rw [htr]
  rfl

/-- C4 counterexample: on the model output `{"question": ""}` and the
accepted job description `"developer"`, `generate_question` returns a record
whose `question` is the empty string — refuting "always a non-empty
string". -/
theorem question_nonempty_cex :
    generateQuestion (.ok (some "\x7b\"question\": \"\"\x7d")) "developer"
      = .ok ⟨"", [("question", .jstr "")]⟩ := rfl

/-- C4 (amended): for a non-blank job description the `question` field is
always a string; when extraction fails (or yields a falsy value) it is the
templated fallback question, which is non-empty; when extraction yields a
(truthy) dict the question is the string coercion of its `question` value
and may be empty. -/
theorem question_string_fallback (jd : String) (p : Option String) :
    (pystrip jd ≠ "" → pyTruthy (genExtract (pystrip (p.getD ""))) = false →
      ∃ w rest, pysplitWs jd = w :: rest ∧
        generateQuestion (.ok p) jd = .ok ⟨fallbackQuestionOf w, fallbackParsed jd w⟩ ∧
        fallbackQuestionOf w ≠ "") ∧
    (∀ kvs, genExtract (pystrip (p.getD "")) = some (.jobj kvs) → kvs ≠ [] →
      generateQuestion (.ok p) jd = .ok ⟨questionCoerce kvs, kvs⟩) := by
  constructor
  · intro hjd hfalse
    obtain ⟨w, rest, hw, heq⟩ := generateQuestion_fallback_eq jd p hjd hfalse
    exact ⟨w, rest, hw, heq, fallbackQuestionOf_ne_empty w⟩
  · intro kvs hkvs hne
    exact generateQuestion_dict_eq jd p kvs hkvs hne

/-- Witness for C4's amended theorem: unparseable output and the job
description `"developer"` give the non-empty templated fallback question. -/
theorem question_string_fallback_witness :
    ∃ w rest, pysplitWs "developer" = w :: rest ∧
      generateQuestion (.ok (some "not json")) "developer"
        = .ok ⟨fallbackQuestionOf w, fallbackParsed "developer" w⟩ ∧
      fallbackQuestionOf w ≠ "" :=
  (question_string_fallback "developer" (some "not json")).1 (by decide) rfl

/-- C5 counterexample: the invocation succeeds with output `"hello"` (a JSON
string), yet `generate_question` raises (the truthy non-dict parse hits
`.get` and the error is re-raised as a `GenerationFailure`) — refuting
"fails only if the underlying invocation fails". -/
theorem gen_failure_nondict_cex :
    generateQuestion (.ok (some "\"hello\"")) "developer" = .error .attrGet := rfl

/-- C5 (amended): `generate_question` fails when the invocation fails, and
also when extraction yields a truthy non-dict value; for every successful
invocation output whose extraction yields a falsy value (with a non-blank
job description) or a non-empty dict, it returns a record without raising. -/
theorem gen_failure_modes (p : Option String) (jd : String) :
    (∀ e, generateQuestion (.error e) jd = .error (.invocation e)) ∧
    (pystrip jd ≠ "" → pyTruthy (genExtract (pystrip (p.getD ""))) = false →
      ∃ r, generateQuestion (.ok p) jd = .ok r) ∧
    (∀ kvs, genExtract (pystrip (p.getD "")) = some (.jobj kvs) → kvs ≠ [] →
      generateQuestion (.ok p) jd = .ok ⟨questionCoerce kvs, kvs⟩) ∧
    (∀ v, genExtract (pystrip (p.getD "")) = some v → pyTruthyJ v = true →
      isDictJ v = false → generateQuestion (.ok p) jd = .error .attrGet) := by
  refine ⟨fun e => rfl, ?_, ?_, ?_⟩
  · intro hjd hfalse
    obtain ⟨w, rest, hw, heq⟩ := generateQuestion_fallback_eq jd p hjd hfalse
    exact ⟨_, heq⟩
  · intro kvs hkvs hne
    exact generateQuestion_dict_eq jd p kvs hkvs hne
  · intro v hv htr hnd
    rw [generateQuestion_ok, hv]
    rw [show pyTruthy (some v) = pyTruthyJ v from rfl, htr]
    simp only [if_true]
    cases v with
    | jobj kvs => simp [isDictJ] at hnd
    | jnull => rfl
    | jbool b => rfl
    | jint n => rfl
    | jfloat q => rfl
    | jnan => rfl
    | jinf g => rfl
    | jstr s => rfl
    | jarr xs => rfl

/-- Witness for C5's amended theorem: garbage output with a non-blank job
description yields a record, not an error. -/
theorem gen_failure_modes_witness :
    ∃ r, generateQuestion (.ok (some "garbage output")) "engineer role" = .ok r :=
  (gen_failure_modes (some "garbage output") "engineer role").2.1 (by decide) rfl

/-- Generic proof of the per-field coercion clauses from the fact that the
validated dict stores `ensureList` of the original field. -/
theorem fieldCoerced_of (d : PyDict) (f : String)
    (hf : dictGet? (validateFeedback d) f = some (.jarr (ensureList (dictGet? d f)))) :
    fieldCoerced d f := by
  refine ⟨?_, ?_, ?_, ?_, ?_⟩
  · intro h
    rw [hf, h]
    rfl
  · intro h
    rw [hf, h]
    rfl
  · intro xs h
    rw [hf, h]
    rfl
  · intro s h
    rw [hf, h]
    rfl
  · intro v h hs
    rw [hf, h]
    cases v with
    | jbool b => rfl
    | jint n => rfl
    | jfloat q => rfl
    | jnan => rfl
    | jinf g => rfl
    | jnull => simp [scalarNonStr] at hs
    | jstr s => simp [scalarNonStr] at hs
    | jarr xs => simp [scalarNonStr] at hs
    | jobj kvs => simp [scalarNonStr] at hs

/-- C6: for every successfully extracted object, the validated record's
`rating` is the integer coercion of the original `rating` (null on absence,
null value, or failed coercion), and each of `strengths`, `weaknesses`,
`suggestions` follows the claimed coercion: lists pass through, strings are
split on newline/semicolon/comma into trimmed non-empty segments, null or
absent becomes the empty list, and any other scalar becomes the one-element
list of its string form. -/
theorem validate_feedback_coercion (d : PyDict) :
    (dictGet? d "rating" = none → dictGet? (validateFeedback d) "rating" = some .jnull) ∧
    (dictGet? d "rating" = some .jnull →
      dictGet? (validateFeedback d) "rating" = some .jnull) ∧
    (∀ v, dictGet? d "rating" = some v → v ≠ .jnull →
      dictGet? (validateFeedback d) "rating" = some (intOrNull (pyIntCoerce v))) ∧
    fieldCoerced d "strengths" ∧ fieldCoerced d "weaknesses" ∧
    fieldCoerced d "suggestions" := by
  have hr : dictGet? (validateFeedback d) "rating"
      = some (ratingCoerce (dictGet? d "rating")) := rfl
  refine ⟨?_, ?_, ?_, fieldCoerced_of d "strengths" rfl,
    fieldCoerced_of d "weaknesses" rfl, fieldCoerced_of d "suggestions" rfl⟩
  · intro h
    rw [hr, h]
    rfl
  · intro h
    rw [hr, h]
    rfl
  · intro v h hne
    rw [hr, h]
    cases v with
    | jnull => exact absurd rfl hne
    | jbool b => rfl
    | jint n => rfl
    | jfloat q => rfl
    | jnan => rfl
    | jinf g => rfl
    | jstr s => rfl
    | jarr xs => rfl
    | jobj kvs => rfl

/-- Witness for C6 on a concrete extracted object: a string rating is
coerced to an integer, a string field is split, a null field becomes the
empty list, a boolean field becomes `["True"]`. -/
theorem validate_feedback_coercion_witness :
    dictGet? (validateFeedback [("rating", .jstr "7"), ("strengths", .jstr "a; b"),
        ("weaknesses", .jnull), ("suggestions", .jbool true)]) "rating"
      = some (.jint 7) ∧
    dictGet? (validateFeedback [("rating", .jstr "7"), ("strengths", .jstr "a; b"),
        ("weaknesses", .jnull), ("suggestions", .jbool true)]) "strengths"
      = some (.jarr [.jstr "a", .jstr "b"]) ∧
    dictGet? (validateFeedback [("rating", .jstr "7"), ("strengths", .jstr "a; b"),
        ("weaknesses", .jnull), ("suggestions", .jbool true)]) "weaknesses"
      = some (.jarr []) ∧
    dictGet? (validateFeedback [("rating", .jstr "7"), ("strengths", .jstr "a; b"),
        ("weaknesses", .jnull), ("suggestions", .jbool true)]) "suggestions"
      = some (.jarr [.jstr "True"]) := by
  have h := validate_feedback_coercion [("rating", .jstr "7"), ("strengths", .jstr "a; b"),
    ("weaknesses", .jnull), ("suggestions", .jbool true)]
  refine ⟨h.2.2.1 (.jstr "7") rfl (fun hcon => JVal.noConfusion hcon), ?_, ?_, ?_⟩
  · exact h.2.2.2.1.2.2.2.1 "a; b" rfl
  · exact h.2.2.2.2.1.2.1 rfl
  · exact h.2.2.2.2.2.2.2.2.2 (.jbool true) rfl rfl

/-- C7: in the background evaluate-and-advance unit, a raising evaluator
leaves the answers (and questions) history unchanged and sets the evaluation
sub-state to error; a returning evaluator appends exactly one
question/answer/feedback triple and sets the sub-state ready with
`last_feedback` populated, where a failed next-question generation yields a
null `next_question` without failing the unit. -/
theorem bg_evaluate_frame :
    (∀ (s : Session) (gr : Except GenError QRecord) (q a msg : String),
      (bgEvaluateAnswer (.error msg) gr q a s).answers = s.answers ∧
      (bgEvaluateAnswer (.error msg) gr q a s).questions = s.questions ∧
      (bgEvaluateAnswer (.error msg) gr q a s).evaluation.status = .error ∧
      (bgEvaluateAnswer (.error msg) gr q a s).evaluation.error = some msg) ∧
    (∀ (s : Session) (gr : Except GenError QRecord) (q a : String) (fb : PyDict),
      (bgEvaluateAnswer (.ok fb) gr q a s).answers = s.answers ++ [⟨q, a, fb⟩] ∧
      (bgEvaluateAnswer (.ok fb) gr q a s).evaluation.status = .ready ∧
      (bgEvaluateAnswer (.ok fb) gr q a s).evaluation.last_feedback = some fb) ∧
    (∀ (s : Session) (q a : String) (fb : PyDict) (e : GenError),
      (bgEvaluateAnswer (.ok fb) (.error e) q a s).evaluation.next_question = none) ∧
    (∀ (s : Session) (q a : String) (fb : PyDict) (r : QRecord),
      (bgEvaluateAnswer (.ok fb) (.ok r) q a s).evaluation.next_question = some r.question) :=
  ⟨fun _ _ _ _ _ => ⟨rfl, rfl, rfl, rfl⟩,
   fun _ _ _ _ _ => ⟨rfl, rfl, rfl⟩,
   fun _ _ _ _ _ => rfl,
   fun _ _ _ _ _ => rfl⟩

/-- C8 counterexample: submitting an answer before the first question is
generated puts the evaluation sub-state in `pending`; the
generate-first-question unit then resets it to `idle` on success — a
`pending → idle` transition outside the claimed transition system. -/
theorem eval_status_transition_cex :
    (answerQuestionMark (initSession "dev")).evaluation.status = .pending ∧
    (bgGenerateFirstQuestion (.ok ⟨"Q1", []⟩)
        (answerQuestionMark (initSession "dev"))).evaluation.status = .idle ∧
    claimAllowedEvalStep .pending .idle = false :=
  ⟨rfl, rfl, rfl⟩

/-- C8 (amended): under every operation the questions and answers sequences
only grow (never removed or overwritten); `answer_question` always sets
`evaluation.status` to `pending`; evaluate-and-advance sets it to `ready`
(or `error` if the safe evaluator raises); generate-first-question leaves it
unchanged on failure but resets it to `idle` on success, so a `pending →
idle` step occurs if an answer was submitted before the first question. -/
theorem session_monotone_and_transitions :
    (∀ (op : SessOp) (s : Session),
      s.questions <+: (applySessOp op s).questions ∧
      s.answers <+: (applySessOp op s).answers) ∧
    (∀ s : Session, (answerQuestionMark s).evaluation.status = .pending) ∧
    (∀ (s : Session) (gr : Except GenError QRecord) (q a msg : String),
      (bgEvaluateAnswer (.error msg) gr q a s).evaluation.status = .error) ∧
    (∀ (s : Session) (gr : Except GenError QRecord) (q a : String) (fb : PyDict),
      (bgEvaluateAnswer (.ok fb) gr q a s).evaluation.status = .ready) ∧
    (∀ (s : Session) (r : QRecord),
      (bgGenerateFirstQuestion (.ok r) s).evaluation.status = .idle) ∧
    (∀ (s : Session) (e : GenError),
      (bgGenerateFirstQuestion (.error e) s).evaluation.status = s.evaluation.status) := by
  refine ⟨?_, fun _ => rfl, fun _ _ _ _ _ => rfl, fun _ _ _ _ _ => rfl,
    fun _ _ => rfl, fun _ _ => rfl⟩
  intro op s
  cases op with
  | answerMark => exact ⟨List.prefix_refl _, List.prefix_refl _⟩
  | bgGen gr =>
    cases gr with
    | ok r => exact ⟨List.prefix_append _ _, List.prefix_refl _⟩
    | error e => exact ⟨List.prefix_refl _, List.prefix_refl _⟩
  | bgEval er gr q a =>
    cases er with
    | ok fb => exact ⟨List.prefix_append _ _, List.prefix_append _ _⟩
    | error msg => exact ⟨List.prefix_refl _, List.prefix_refl _⟩

/-- C9: a blank (or absent) job description is rejected before any state is
created — the store is unchanged and no background work is scheduled; a
non-blank one creates a `pending` session, schedules the first-question
unit, and returns the id immediately. -/
theorem start_interview_validation (jd : Option String) (store : SessionStore) (sid : String) :
    ((jd = none ∨ pystrip (jd.getD "") = "") →
      (startInterview jd store sid).1 = store ∧
      (startInterview jd store sid).2.1 = [] ∧
      ∃ e, (startInterview jd store sid).2.2 = .error e) ∧
    (∀ j, jd = some j → pystrip j ≠ "" →
      (startInterview jd store sid).1 = store ++ [(sid, initSession j)] ∧
      (startInterview jd store sid).2.1 = [sid] ∧
      (startInterview jd store sid).2.2 = .ok ⟨sid, ""⟩ ∧
      (initSession j).status = .pending) := by
  constructor
  · intro h
    cases jd with
    | none => exact ⟨rfl, rfl, _, rfl⟩
    | some j =>
      have hj : pystrip j = "" := by
        rcases h with hn | hb
        · exact Option.noConfusion hn
        · exact hb
      simp only [startInterview]
      rw [if_pos hj]
      exact ⟨rfl, rfl, _, rfl⟩
  · intro j hj hne
    subst hj
    simp only [startInterview]
    rw [if_neg hne]
    exact ⟨rfl, rfl, rfl, rfl⟩

/-- Witness for C9: a whitespace-only description is rejected with no state
created; a real one is accepted. -/
theorem start_interview_validation_witness :
    (startInterview (some "   ") [] "sid-1").1 = [] ∧
    (startInterview (some "   ") [] "sid-1").2.1 = [] ∧
    (∃ e, (startInterview (some "   ") [] "sid-1").2.2 = .error e) ∧
    (startInterview (some "data analyst") [] "sid-2").2.2 = .ok ⟨"sid-2", ""⟩ := by
  have h1 := (start_interview_validation (some "   ") [] "sid-1").1 (Or.inr (by decide))
  have h2 := (start_interview_validation (some "data analyst") [] "sid-2").2
    "data analyst" rfl (by decide)
  exact ⟨h1.1, h1.2.1, h1.2.2, h2.2.2.1⟩

/-- C10: for every accepted job description the synchronous response of
`start_interview` carries the empty string as `question`; the fresh session
shows no question through `get_status`, and the first real question becomes
observable through `get_status` only after the background unit completes. -/
theorem start_interview_async_question (j sid : String) (store : SessionStore) (r : QRecord) :
    pystrip j ≠ "" →
    ((startInterview (some j) store sid).2.2 = .ok ⟨sid, ""⟩ ∧
     (statusRead (initSession j)).question = none ∧
     (statusRead (bgGenerateFirstQuestion (.ok r) (initSession j))).question
       = some r.question) := by
  intro h
  refine ⟨?_, rfl, rfl⟩
  simp only [startInterview]
  rw [if_neg h]

/-- Witness for C10 at a concrete job description. -/
theorem start_interview_async_question_witness :
    (startInterview (some "backend engineer") [] "sid-3").2.2 = .ok ⟨"sid-3", ""⟩ ∧
    (statusRead (initSession "backend engineer")).question = none ∧
    (statusRead (bgGenerateFirstQuestion (.ok ⟨"Q1", []⟩)
        (initSession "backend engineer"))).question = some "Q1" :=
  start_interview_async_question "backend engineer" "sid-3" [] ⟨"Q1", []⟩ (by decide)
